import Mathlib

/-!
Verification development for the IMPERIAL-LSU velocity model (src/ivlsu.c,
src/ivlsu.h).  The C program is shallowly embedded: C doubles become exact
rationals, C ints become integers, the PROJ coordinate transform becomes an
abstract function parameter, and the global program state (configuration,
velocity model, derived geometry, readiness flag) is passed explicitly.
-/

namespace IVLSU

/-! ## C arithmetic helpers

C to-int conversion of a double truncates toward zero; C round() rounds half
away from zero; C fmod(x, y) is x - trunc(x / y) * y. -/

/-- C double-to-int conversion: truncation toward zero. -/
def ctrunc (q : ℚ) : ℤ := if 0 ≤ q then ⌊q⌋ else -⌊-q⌋

/-- C round(): round half away from zero. -/
def cround (q : ℚ) : ℤ := if 0 ≤ q then ⌊q + 1/2⌋ else -⌊-q + 1/2⌋

/-- C fmod(): remainder with the sign of the dividend, x - trunc(x/y)*y. -/
def fmodQ (x y : ℚ) : ℚ := x - (ctrunc (x / y) : ℚ) * y

/-! ## Data model (ivlsu.h) -/

/-- ivlsu_point_t: longitude, latitude (degrees) and depth (meters). -/
structure Point where
  longitude : ℚ
  latitude : ℚ
  depth : ℚ
deriving DecidableEq

/-- ivlsu_properties_t: vp, vs (m/s), rho (g/m^3), and the unused qp, qs. -/
structure Properties where
  vp : ℚ
  vs : ℚ
  rho : ℚ
  qp : ℚ
  qs : ℚ
deriving DecidableEq

/-- ivlsu_configuration_t (model_dir omitted: it only names the data path). -/
structure Configuration where
  utm_zone : ℤ
  nx : ℤ
  ny : ℤ
  nz : ℤ
  depth : ℚ
  top_left_corner_e : ℚ
  top_left_corner_n : ℚ
  top_right_corner_e : ℚ
  top_right_corner_n : ℚ
  bottom_left_corner_e : ℚ
  bottom_left_corner_n : ℚ
  bottom_right_corner_e : ℚ
  bottom_right_corner_n : ℚ
  depth_interval : ℚ
  interpolation : ℤ

/-- ivlsu_model_t.  In C, model->vp is an untyped pointer holding either the
in-memory float array (vp_status = 2) or the FILE handle of vp.dat
(vp_status = 1, set in ivlsu_try_reading_model).  Both payloads are carried
here; vp_status selects which one is meaningful.  Memory is a total function
on flat indices, matching the unchecked C pointer indexing. -/
structure Model where
  vp_status : ℤ
  vpMem : ℤ → ℚ
  vpFile : ℤ → ℚ

/-- The geometry globals derived in ivlsu_init from the corner coordinates
(atan/cos/sin/sqrt values; transcendental, so carried as parameters). -/
structure Geometry where
  cos_rotation_angle : ℚ
  sin_rotation_angle : ℚ
  total_height_m : ℚ
  total_width_m : ℚ

/-- The global variables of ivlsu.h that ivlsu_query can see. -/
structure GlobalState where
  is_initialized : ℤ
  configuration : Configuration
  velocity_model : Model
  geometry : Geometry

/-- Return code SUCCESS (ivlsu.h). -/
def SUCCESS : ℤ := 0

/-- Return code FAIL (ivlsu.h). -/
def FAIL : ℤ := 1

/-- Nonzero error code from the external UCVM framework header
(ucvm_model_dtypes.h, outside this repository); its exact value is never
inspected by ivlsu.c, only returned. -/
def ucvmCodeError : ℤ := 1

/-! ## Coordinate transform adapter (to_utm)

The PROJ transform is a black box: a function from (lon, lat) to an optional
projected pair, none meaning the transform reported an error.  The C to_utm
writes through its out-parameters only on success and returns an error code
on failure, leaving the caller's variables untouched. -/

/-- to_utm over an abstract transform.  Returns (error code, point_u,
point_v); on transform failure the incoming u, v survive unchanged, exactly
as the C out-parameters do. -/
def to_utm (trans : ℚ → ℚ → Option (ℚ × ℚ)) (lon lat : ℚ) (u v : ℚ) :
    ℤ × ℚ × ℚ :=
  match trans lon lat with
  | some p => (0, p.1, p.2)
  | none => (ucvmCodeError, u, v)

/-! ## Derived-property calculators -/

/-- ivlsu_calculate_density: vp (m/s) to density (g/m^3) via the Nafe-Drake
polynomial, clamped below at 1.0 before the 1000 scale-up. -/
def ivlsu_calculate_density (vp : ℚ) : ℚ :=
  let v := vp * 0.001
  let t1 := v * 1.6612
  let t2 := (v * v) * 0.4721
  let t3 := (v * v * v) * 0.0671
  let t4 := (v * v * v * v) * 0.0043
  let t5 := (v * v * v * v * v) * 0.000106
  let retVal := t1 - t2 + t3 - t4 + t5
  let retVal := if retVal < 1 then 1 else retVal
  retVal * 1000

/-- ivlsu_calculate_vs: vp (m/s) to vs (m/s) via Brocher (2005) eqn 1. -/
def ivlsu_calculate_vs (vp : ℚ) : ℚ :=
  let v := vp * 0.001
  let t1 := v * 1.2344
  let t2 := (v * v) * 0.7949
  let t3 := (v * v * v) * 0.1238
  let t4 := (v * v * v * v) * 0.0064
  (0.7858 - t1 + t2 - t3 + t4) * 1000

/-- Lines 263-264 of ivlsu_query: after the gather stage, overwrite rho and
vs with the values derived from the resolved vp. -/
def derive_vs_rho (p : Properties) : Properties :=
  { p with rho := ivlsu_calculate_density p.vp, vs := ivlsu_calculate_vs p.vp }

/-! ## Interpolation engine

ivlsu_linear_interpolation writes only vp, vs and rho into *ret_properties;
the qp/qs already stored there are untouched.  The temporaries used by the
bilinear and trilinear routines are calloc'ed, hence all-zero. -/

/-- A calloc'ed ivlsu_properties_t (all fields zero). -/
def zeroProperties : Properties := ⟨0, 0, 0, 0, 0⟩

/-- The uninitialized stack array surrounding_points[8] of ivlsu_query.
Only vp/vs/rho of these tuples ever flow into results (read_properties
overwrites them and the interpolation reads nothing else), so the stack
garbage is modelled as zeros. -/
def stackGarbage : Properties := zeroProperties

/-- ivlsu_linear_interpolation: blends vp/vs/rho of x0 and x1 into ret. -/
def ivlsu_linear_interpolation (percent : ℚ) (x0 x1 ret : Properties) :
    Properties :=
  { ret with
    vp := (1 - percent) * x0.vp + percent * x1.vp
    vs := (1 - percent) * x0.vs + percent * x1.vs
    rho := (1 - percent) * x0.rho + percent * x1.rho }

/-- ivlsu_bilinear_interpolation over the plane [origin, +1x, +1y, +1x+1y]. -/
def ivlsu_bilinear_interpolation (xp yp : ℚ) (p0 p1 p2 p3 ret : Properties) :
    Properties :=
  let t0 := ivlsu_linear_interpolation xp p0 p1 zeroProperties
  let t1 := ivlsu_linear_interpolation xp p2 p3 zeroProperties
  ivlsu_linear_interpolation yp t0 t1 ret

/-- ivlsu_trilinear_interpolation: bilinear on the first four points, bilinear
on the last four, then linear along z. -/
def ivlsu_trilinear_interpolation (xp yp zp : ℚ)
    (p0 p1 p2 p3 p4 p5 p6 p7 ret : Properties) : Properties :=
  let t0 := ivlsu_bilinear_interpolation xp yp p0 p1 p2 p3 zeroProperties
  let t1 := ivlsu_bilinear_interpolation xp yp p4 p5 p6 p7 zeroProperties
  ivlsu_linear_interpolation zp t0 t1 ret

/-! ## Grid storage accessor (ivlsu_read_properties)

The C function first writes the -1 sentinels into vp/vs/rho (qp/qs are not
touched), computes the flat location, and then dispatches on vp_status.
CRITICAL SOURCE DETAIL: in the file-resident branch the C code declares a
local `FILE *fp = NULL;` and calls fseek(fp, ...)/fread(..., fp) on that
NULL handle -- it never touches the stored handle model->vp.  The embedding
keeps that local null handle; a read through it yields no data (in the
compiled C it is undefined behavior). -/

/-- fread of one float through an optional file handle positioned at a flat
float index: none models a NULL FILE pointer, which yields no data. -/
def cFread (handle : Option (ℤ → ℚ)) (location : ℤ) : Option ℚ :=
  match handle with
  | some contents => some (contents location)
  | none => none

/-- ivlsu_read_properties at lattice indices (x, y, z), updating *data. -/
def ivlsu_read_properties (cfg : Configuration) (model : Model)
    (x y z : ℤ) (data : Properties) : Properties :=
  let d := { data with vp := (-1 : ℚ), vs := (-1 : ℚ), rho := (-1 : ℚ) }
  let location := z * (cfg.nx * cfg.ny) + y * cfg.nx + x
  if model.vp_status = 2 then
    { d with vp := model.vpMem location }
  else if model.vp_status = 1 then
    -- FILE *fp = NULL;  fseek(fp, location*sizeof(float), SEEK_SET);
    -- fread(&(data->vp), sizeof(float), 1, fp);
    match cFread none location with
    | some v => { d with vp := v }
    | none => d
  else d

/-! ## Grid geometry (index and fraction computation in ivlsu_query) -/

/-- delta_lon of ivlsu_query: easting extent over nx - 1. -/
def delta_lon (cfg : Configuration) : ℚ :=
  (cfg.top_right_corner_e - cfg.bottom_left_corner_e) / ((cfg.nx : ℚ) - 1)

/-- delta_lat of ivlsu_query: northing extent over ny - 1. -/
def delta_lat (cfg : Configuration) : ℚ :=
  (cfg.top_right_corner_n - cfg.bottom_left_corner_n) / ((cfg.ny : ℚ) - 1)

/-- load_x_coord = (int)(round(point_x / delta_lon)). -/
def load_x_coord (cfg : Configuration) (px : ℚ) : ℤ := cround (px / delta_lon cfg)

/-- load_y_coord = (int)(round(point_y / delta_lat)). -/
def load_y_coord (cfg : Configuration) (py : ℚ) : ℤ := cround (py / delta_lat cfg)

/-- load_z_coord = (int)(depth / 1000): fixed 1000 m layers, independent of
the configured depth_interval. -/
def load_z_coord (depth : ℚ) : ℤ := ctrunc (depth / 1000)

/-- x_interval: total width over nx - 1 when nx > 1, else the full width. -/
def x_interval (cfg : Configuration) (geo : Geometry) : ℚ :=
  if 1 < cfg.nx then geo.total_width_m / ((cfg.nx : ℚ) - 1) else geo.total_width_m

/-- y_interval: total height over ny - 1 when ny > 1, else the full height. -/
def y_interval (cfg : Configuration) (geo : Geometry) : ℚ :=
  if 1 < cfg.ny then geo.total_height_m / ((cfg.ny : ℚ) - 1) else geo.total_height_m

/-- x_percent = fmod(point_u, x_interval) / x_interval. -/
def x_percent (cfg : Configuration) (geo : Geometry) (pu : ℚ) : ℚ :=
  fmodQ pu (x_interval cfg geo) / x_interval cfg geo

/-- y_percent = fmod(point_v, y_interval) / y_interval. -/
def y_percent (cfg : Configuration) (geo : Geometry) (pv : ℚ) : ℚ :=
  fmodQ pv (y_interval cfg geo) / y_interval cfg geo

/-- z_percent = fmod(depth, depth_interval) / depth_interval. -/
def z_percent (cfg : Configuration) (depth : ℚ) : ℚ :=
  fmodQ depth cfg.depth_interval / cfg.depth_interval

/-! ## Query orchestrator (ivlsu_query)

The per-point pipeline of ivlsu_query lines 172-265.  Besides the output
tuple, each step exposes the list of lattice index triples it handed to
ivlsu_read_properties (the C call sites in source order) and the values of
the C locals point_u/point_v at the end of the iteration -- those locals are
declared OUTSIDE the point loop, so they persist between iterations. -/

/-- The gather-and-blend stage (ivlsu_query lines 230-261): depending on the
bottom-plane edge case and the interpolation flag, read 1, 4 or 8 lattice
tuples and combine them.  Returns the resulting tuple together with the
index triples passed to ivlsu_read_properties, in call order. -/
def ivlsu_query_gather (cfg : Configuration) (model : Model)
    (lx ly lz : ℤ) (xp yp zp : ℚ) (prior : Properties) :
    Properties × List (ℤ × ℤ × ℤ) :=
  if lz = 0 ∧ zp = 0 then
    -- load_z_coord = 0; bilinear on the single bottom plane
    if cfg.interpolation ≠ 0 then
      (ivlsu_bilinear_interpolation xp yp
        (ivlsu_read_properties cfg model lx ly 0 stackGarbage)
        (ivlsu_read_properties cfg model (lx + 1) ly 0 stackGarbage)
        (ivlsu_read_properties cfg model lx (ly + 1) 0 stackGarbage)
        (ivlsu_read_properties cfg model (lx + 1) (ly + 1) 0 stackGarbage)
        prior,
       [(lx, ly, 0), (lx + 1, ly, 0), (lx, ly + 1, 0), (lx + 1, ly + 1, 0)])
    else
      (ivlsu_read_properties cfg model lx ly 0 prior, [(lx, ly, 0)])
  else
    if cfg.interpolation ≠ 0 then
      (ivlsu_trilinear_interpolation xp yp zp
        (ivlsu_read_properties cfg model lx ly lz stackGarbage)
        (ivlsu_read_properties cfg model (lx + 1) ly lz stackGarbage)
        (ivlsu_read_properties cfg model lx (ly + 1) lz stackGarbage)
        (ivlsu_read_properties cfg model (lx + 1) (ly + 1) lz stackGarbage)
        (ivlsu_read_properties cfg model lx ly (lz - 1) stackGarbage)
        (ivlsu_read_properties cfg model (lx + 1) ly (lz - 1) stackGarbage)
        (ivlsu_read_properties cfg model lx (ly + 1) (lz - 1) stackGarbage)
        (ivlsu_read_properties cfg model (lx + 1) (ly + 1) (lz - 1) stackGarbage)
        prior,
       [(lx, ly, lz), (lx + 1, ly, lz), (lx, ly + 1, lz), (lx + 1, ly + 1, lz),
        (lx, ly, lz - 1), (lx + 1, ly, lz - 1), (lx, ly + 1, lz - 1),
        (lx + 1, ly + 1, lz - 1)])
    else
      (ivlsu_read_properties cfg model lx ly lz prior, [(lx, ly, lz)])

/-- One iteration of the ivlsu_query point loop.  Takes the persisting
point_u/point_v locals and the prior contents of data[i]; returns the new
data[i], the triples passed to the storage accessor, and the point_u/point_v
values left behind for the next iteration.  The error code returned by
to_utm is discarded, exactly as line 185 of ivlsu.c discards it. -/
def ivlsu_query_point (cfg : Configuration) (geo : Geometry) (model : Model)
    (trans : ℚ → ℚ → Option (ℚ × ℚ)) (u v : ℚ) (pt : Point)
    (prior : Properties) : Properties × List (ℤ × ℤ × ℤ) × ℚ × ℚ :=
  if pt.depth < 0 then
    (⟨-1, -1, -1, -1, -1⟩, [], u, v)
  else
    let w := to_utm trans pt.longitude pt.latitude u v
    let pu := w.2.1 - cfg.bottom_left_corner_e
    let pv := w.2.2 - cfg.bottom_left_corner_n
    let px := geo.cos_rotation_angle * pu - geo.sin_rotation_angle * pv
    let py := geo.sin_rotation_angle * pu + geo.cos_rotation_angle * pv
    let ly := load_y_coord cfg py
    let lx := load_x_coord cfg px
    let lz := load_z_coord pt.depth
    if cfg.depth < pt.depth ∨ cfg.nx - 1 < lx ∨ cfg.ny - 1 < ly ∨
        lx < 0 ∨ ly < 0 ∨ lz < 0 then
      ({ prior with vp := (-1 : ℚ), vs := (-1 : ℚ), rho := (-1 : ℚ) }, [], pu, pv)
    else
      let g := ivlsu_query_gather cfg model lx ly lz
        (x_percent cfg geo pu) (y_percent cfg geo pv) (z_percent cfg pt.depth)
        prior
      (derive_vs_rho g.1, g.2, pu, pv)

/-- The point loop of ivlsu_query, threading the persisting point_u/point_v
locals.  Each input point is paired with the prior contents of its data[i]
slot (the caller-owned output buffer). -/
def ivlsu_query_loop (cfg : Configuration) (geo : Geometry) (model : Model)
    (trans : ℚ → ℚ → Option (ℚ × ℚ)) :
    ℚ → ℚ → List (Point × Properties) → List Properties
  | _, _, [] => []
  | u, v, pp :: rest =>
    let r := ivlsu_query_point cfg geo model trans u v pp.1 pp.2
    r.1 :: ivlsu_query_loop cfg geo model trans r.2.2.1 r.2.2.2 rest

/-- ivlsu_query: point_u and point_v start at 0; the function always returns
SUCCESS together with the filled output buffer. -/
def ivlsu_query (cfg : Configuration) (geo : Geometry) (model : Model)
    (trans : ℚ → ℚ → Option (ℚ × ℚ)) (pts : List (Point × Properties)) :
    ℤ × List Properties :=
  (SUCCESS, ivlsu_query_loop cfg geo model trans 0 0 pts)

/-- ivlsu_query as seen from the global state: it reads the configuration,
geometry and velocity model globals.  It never reads is_initialized. -/
def ivlsu_query_st (st : GlobalState) (trans : ℚ → ℚ → Option (ℚ × ℚ))
    (pts : List (Point × Properties)) : ℤ × List Properties :=
  ivlsu_query st.configuration st.geometry st.velocity_model trans pts

/-! ## Concrete test fixtures

A small 2x2x2 grid used by the witnesses and counterexamples: an axis-aligned
200 m x 200 m box with bottom-left projected corner (100, 100), 1000 m of
depth in 1000 m layers, interpolation enabled. -/

/-- A 2x2x2 test configuration. -/
def cfgT : Configuration :=
  { utm_zone := 11, nx := 2, ny := 2, nz := 2, depth := 1000
    top_left_corner_e := 100, top_left_corner_n := 300
    top_right_corner_e := 300, top_right_corner_n := 300
    bottom_left_corner_e := 100, bottom_left_corner_n := 100
    bottom_right_corner_e := 300, bottom_right_corner_n := 100
    depth_interval := 1000, interpolation := 1 }

/-- Geometry of the axis-aligned test box: no rotation, 200 m extents. -/
def geoT : Geometry :=
  { cos_rotation_angle := 1, sin_rotation_angle := 0
    total_height_m := 200, total_width_m := 200 }

/-- A memory-resident test model whose lattice stores 500 everywhere. -/
def modelT : Model :=
  { vp_status := 2, vpMem := fun _ => 500, vpFile := fun _ => 0 }

/-- A file-resident test model whose backing vp.dat stores 42 everywhere. -/
def modelFile : Model :=
  { vp_status := 1, vpMem := fun _ => 0, vpFile := fun _ => 42 }

/-- A transform that succeeds only at longitude 10, mapping to the projected
point (300, 300) -- the top-right corner of the test box. -/
def transT : ℚ → ℚ → Option (ℚ × ℚ) :=
  fun lon _ => if lon = 10 then some (300, 300) else none

/-- A transform that always fails. -/
def transNone : ℚ → ℚ → Option (ℚ × ℚ) := fun _ _ => none

/-- A surface test point whose transform under transT succeeds. -/
def ptT : Point := ⟨10, 35, 0⟩

/-- A test point whose transform under transT fails (longitude 20). -/
def ptBad : Point := ⟨20, 35, 0⟩

/-- A test point deeper than the configured maximum depth of cfgT. -/
def ptDeep : Point := ⟨10, 35, 5000⟩

/-- A caller-owned output slot with nonzero prior qp/qs contents. -/
def prior79 : Properties := ⟨0, 0, 0, 7, 9⟩

/-- A global state whose ready flag is still 0 (model not initialized). -/
def stNotReady : GlobalState :=
  { is_initialized := 0, configuration := cfgT
    velocity_model := modelT, geometry := geoT }

/-- The tuple ivlsu_query produces for a vp-500 lattice point of cfgT:
vs and rho are derived from vp = 500 by the Brocher relations (the density
polynomial evaluates below 1 at 0.5 km/s, so rho clamps to 1000). -/
def props500 : Properties := ⟨500, 352.25, 1000, 0, 0⟩

/-- cfgT with 3000 m of configured depth over the same nz = 2 layers and
interpolation disabled: exercises the vertical index overrun. -/
def cfgZ : Configuration :=
  { cfgT with depth := 3000, interpolation := 0 }

/-- A mid-depth test point (2500 m, within the configured depth of cfgZ). -/
def ptMid : Point := ⟨10, 35, 2500⟩

/-! ## Helper lemmas -/

/-- The Nafe-Drake quintic of ivlsu_calculate_density is monotone on the
Brocher validity range 1.5 to 8 km/s (derivative-free certificate: the
divided difference is a positive combination of squares and box products). -/
theorem nafe_drake_mono {x y : ℚ} (h1 : 3/2 ≤ x) (h2 : x ≤ y) (h3 : y ≤ 8) :
    x*1.6612 - x*x*0.4721 + x*x*x*0.0671 - x*x*x*x*0.0043 + x*x*x*x*x*0.000106
    ≤ y*1.6612 - y*y*0.4721 + y*y*y*0.0671 - y*y*y*y*0.0043 + y*y*y*y*y*0.000106 := by
  have hQ : 0 ≤ 1.6612 - 0.4721*(x+y) + 0.0671*(x^2+x*y+y^2)
      - 0.0043*(x^3+x^2*y+x*y^2+y^3)
      + 0.000106*(x^4+x^3*y+x^2*y^2+x*y^3+y^4) := by
    nlinarith [sq_nonneg ((x+y)^2 - (1720/53)*(x+y) + 200),
      sq_nonneg (x + y - 44626/4639),
      mul_nonneg (mul_nonneg (show (0:ℚ) ≤ 16 - (x+y) by linarith)
        (show (0:ℚ) ≤ 872/53 - (x+y) by linarith)) (sq_nonneg (x-y)),
      mul_nonneg (show (0:ℚ) ≤ 13/2 - (y-x) by linarith)
        (show (0:ℚ) ≤ 13/2 + (y-x) by linarith),
      sq_nonneg ((x-y)^2)]
  nlinarith [mul_nonneg (sub_nonneg.2 h2) hQ]

/-- The storage accessor never writes qp or qs. -/
theorem read_properties_qp_qs (cfg : Configuration) (model : Model)
    (x y z : ℤ) (d : Properties) :
    (ivlsu_read_properties cfg model x y z d).qp = d.qp ∧
    (ivlsu_read_properties cfg model x y z d).qs = d.qs := by
  unfold ivlsu_read_properties
  split_ifs <;> exact ⟨rfl, rfl⟩

/-- The gather stage never writes qp or qs: every interpolation routine and
the raw read leave the output slot's qp/qs untouched. -/
theorem gather_qp_qs (cfg : Configuration) (model : Model) (lx ly lz : ℤ)
    (xp yp zp : ℚ) (prior : Properties) :
    (ivlsu_query_gather cfg model lx ly lz xp yp zp prior).1.qp = prior.qp ∧
    (ivlsu_query_gather cfg model lx ly lz xp yp zp prior).1.qs = prior.qs := by
  unfold ivlsu_query_gather ivlsu_trilinear_interpolation
    ivlsu_bilinear_interpolation ivlsu_linear_interpolation
  split_ifs <;>
    first
      | exact ⟨rfl, rfl⟩
      | exact ⟨(read_properties_qp_qs cfg model lx ly 0 prior).1,
               (read_properties_qp_qs cfg model lx ly 0 prior).2⟩
      | exact ⟨(read_properties_qp_qs cfg model lx ly lz prior).1,
               (read_properties_qp_qs cfg model lx ly lz prior).2⟩

/-! ## Claims -/

/-- C9: interpolation endpoint identities.  Linear at percent 0 returns the
first tuple and at percent 1 the second, exactly on vp/vs/rho; trilinear at
(0,0,0) returns the first of the eight gathered tuples and at (1,1,1) the
eighth, exactly on vp/vs/rho. -/
theorem claim_c9_interpolation_endpoints :
    (∀ A B ret : Properties,
      ((ivlsu_linear_interpolation 0 A B ret).vp = A.vp ∧
       (ivlsu_linear_interpolation 0 A B ret).vs = A.vs ∧
       (ivlsu_linear_interpolation 0 A B ret).rho = A.rho) ∧
      ((ivlsu_linear_interpolation 1 A B ret).vp = B.vp ∧
       (ivlsu_linear_interpolation 1 A B ret).vs = B.vs ∧
       (ivlsu_linear_interpolation 1 A B ret).rho = B.rho)) ∧
    (∀ e0 e1 e2 e3 e4 e5 e6 e7 ret : Properties,
      ((ivlsu_trilinear_interpolation 0 0 0 e0 e1 e2 e3 e4 e5 e6 e7 ret).vp = e0.vp ∧
       (ivlsu_trilinear_interpolation 0 0 0 e0 e1 e2 e3 e4 e5 e6 e7 ret).vs = e0.vs ∧
       (ivlsu_trilinear_interpolation 0 0 0 e0 e1 e2 e3 e4 e5 e6 e7 ret).rho = e0.rho) ∧
      ((ivlsu_trilinear_interpolation 1 1 1 e0 e1 e2 e3 e4 e5 e6 e7 ret).vp = e7.vp ∧
       (ivlsu_trilinear_interpolation 1 1 1 e0 e1 e2 e3 e4 e5 e6 e7 ret).vs = e7.vs ∧
       (ivlsu_trilinear_interpolation 1 1 1 e0 e1 e2 e3 e4 e5 e6 e7 ret).rho = e7.rho)) := by
  constructor
  · intro A B ret
    constructor <;>
      refine ⟨?_, ?_, ?_⟩ <;> simp [ivlsu_linear_interpolation]
  · intro e0 e1 e2 e3 e4 e5 e6 e7 ret
    constructor <;>
      refine ⟨?_, ?_, ?_⟩ <;>
        simp [ivlsu_trilinear_interpolation, ivlsu_bilinear_interpolation,
          ivlsu_linear_interpolation]

/-- C10: ivlsu_calculate_density converts to km/s, evaluates the Nafe-Drake
polynomial, clamps at 1.0 and scales by 1000, so its result is never below
1000 g/m^3, and it is monotone non-decreasing for vp between 1500 and 8000
m/s (1.5 to 8 km/s). -/
theorem claim_c10_density_bounds_monotone :
    (∀ vp : ℚ, 1000 ≤ ivlsu_calculate_density vp) ∧
    (∀ a b : ℚ, 1500 ≤ a → a ≤ b → b ≤ 8000 →
      ivlsu_calculate_density a ≤ ivlsu_calculate_density b) := by
  constructor
  · intro vp
    simp only [ivlsu_calculate_density]
    split_ifs with h
    · norm_num
    · push_neg at h
      linarith
  · intro a b ha hab hb
    have h1 : (3:ℚ)/2 ≤ a * 0.001 := by norm_num; linarith
    have h2 : a * 0.001 ≤ b * 0.001 := by linarith
    have h3 : b * 0.001 ≤ 8 := by norm_num; linarith
    have key := nafe_drake_mono h1 h2 h3
    simp only [ivlsu_calculate_density]
    split_ifs with hx hy hy
    · linarith
    · push_neg at hy
      linarith
    · exfalso
      apply hx
      calc a * 0.001 * 1.6612 - a * 0.001 * (a * 0.001) * 0.4721
            + a * 0.001 * (a * 0.001) * (a * 0.001) * 0.0671
            - a * 0.001 * (a * 0.001) * (a * 0.001) * (a * 0.001) * 0.0043
            + a * 0.001 * (a * 0.001) * (a * 0.001) * (a * 0.001) * (a * 0.001) * 0.000106
          ≤ b * 0.001 * 1.6612 - b * 0.001 * (b * 0.001) * 0.4721
            + b * 0.001 * (b * 0.001) * (b * 0.001) * 0.0671
            - b * 0.001 * (b * 0.001) * (b * 0.001) * (b * 0.001) * 0.0043
            + b * 0.001 * (b * 0.001) * (b * 0.001) * (b * 0.001) * (b * 0.001) * 0.000106 := by
              nlinarith [key]
        _ < 1 := hy
    · linarith

/-- C10 witness: the density bound and the monotonicity at vp 2000 and 3000
m/s, by direct application of the claim theorem. -/
theorem claim_c10_witness :
    1000 ≤ ivlsu_calculate_density 2000 ∧
    ivlsu_calculate_density 2000 ≤ ivlsu_calculate_density 3000 :=
  ⟨claim_c10_density_bounds_monotone.1 2000,
   claim_c10_density_bounds_monotone.2 2000 3000 (by norm_num) (by norm_num)
     (by norm_num)⟩

/-- C5: for non-negative depth the vertical lattice index is floor(depth /
1000) with a fixed 1000 m layer size (independent of depth_interval, which
load_z_coord does not even take), while the vertical fraction is
(depth mod depth_interval) / depth_interval with the floor-based remainder;
horizontal indices are round(py / delta_lat) and round(px / delta_lon)
(round halves up on non-negative arguments, as C round does there), with the
deltas computed from corner coordinates over (n - 1). -/
theorem claim_c5_index_formulas (cfg : Configuration) (px py d : ℚ)
    (hd : 0 ≤ d) (hdi : 0 < cfg.depth_interval)
    (hx : 0 ≤ px / delta_lon cfg) (hy : 0 ≤ py / delta_lat cfg) :
    load_z_coord d = ⌊d / 1000⌋ ∧
    z_percent cfg d =
      (d - cfg.depth_interval * ⌊d / cfg.depth_interval⌋) / cfg.depth_interval ∧
    load_x_coord cfg px = round (px / delta_lon cfg) ∧
    load_y_coord cfg py = round (py / delta_lat cfg) ∧
    delta_lon cfg =
      (cfg.top_right_corner_e - cfg.bottom_left_corner_e) / ((cfg.nx : ℚ) - 1) ∧
    delta_lat cfg =
      (cfg.top_right_corner_n - cfg.bottom_left_corner_n) / ((cfg.ny : ℚ) - 1) := by
  refine ⟨?_, ?_, ?_, ?_, rfl, rfl⟩
  · unfold load_z_coord ctrunc
    rw [if_pos (by positivity)]
  · unfold z_percent fmodQ ctrunc
    rw [if_pos (div_nonneg hd hdi.le)]
    ring
  · unfold load_x_coord cround
    rw [if_pos hx, round_eq]
  · unfold load_y_coord cround
    rw [if_pos hy, round_eq]

/-- C5 witness: on the test configuration at px = 300, py = 100, depth 2500,
the formulas instantiate to concrete values (z index 2, z fraction 1/2,
x index 2, y index 1). -/
theorem claim_c5_witness :
    load_z_coord 2500 = ⌊(2500:ℚ) / 1000⌋ ∧
    z_percent cfgT 2500 =
      ((2500:ℚ) - cfgT.depth_interval * ⌊(2500:ℚ) / cfgT.depth_interval⌋) /
        cfgT.depth_interval ∧
    load_x_coord cfgT 300 = round ((300:ℚ) / delta_lon cfgT) ∧
    load_y_coord cfgT 100 = round ((100:ℚ) / delta_lat cfgT) ∧
    delta_lon cfgT =
      (cfgT.top_right_corner_e - cfgT.bottom_left_corner_e) / ((cfgT.nx : ℚ) - 1) ∧
    delta_lat cfgT =
      (cfgT.top_right_corner_n - cfgT.bottom_left_corner_n) / ((cfgT.ny : ℚ) - 1) :=
  claim_c5_index_formulas cfgT 300 100 2500 (by norm_num) (by norm_num [cfgT])
    (by norm_num [delta_lon, cfgT]) (by norm_num [delta_lat, cfgT])

/-- The query loop produces one output per input point. -/
theorem query_loop_length (cfg : Configuration) (geo : Geometry) (model : Model)
    (trans : ℚ → ℚ → Option (ℚ × ℚ)) :
    ∀ (pts : List (Point × Properties)) (u v : ℚ),
      (ivlsu_query_loop cfg geo model trans u v pts).length = pts.length := by
  intro pts
  induction pts with
  | nil => intro u v; rfl
  | cons pp rest ih =>
    intro u v
    simp only [ivlsu_query_loop, List.length_cons]
    rw [ih]

/-- A point with negative depth yields the all-sentinel tuple at its slot of
the loop output, whatever point_u/point_v carry at that iteration. -/
theorem query_loop_neg_depth (cfg : Configuration) (geo : Geometry)
    (model : Model) (trans : ℚ → ℚ → Option (ℚ × ℚ)) :
    ∀ (pts : List (Point × Properties)) (u v : ℚ) (i : ℕ)
      (pp : Point × Properties), pts[i]? = some pp → pp.1.depth < 0 →
      (ivlsu_query_loop cfg geo model trans u v pts)[i]? =
        some ⟨-1, -1, -1, -1, -1⟩ := by
  intro pts
  induction pts with
  | nil => intro u v i pp h; simp at h
  | cons hd rest ih =>
    intro u v i pp hget hdep
    cases i with
    | zero =>
      simp only [List.getElem?_cons_zero, Option.some.injEq] at hget
      subst hget
      simp only [ivlsu_query_loop, List.getElem?_cons_zero, Option.some.injEq]
      rw [ivlsu_query_point, if_pos hdep]
    | succ n =>
      simp only [List.getElem?_cons_succ] at hget
      simp only [ivlsu_query_loop, List.getElem?_cons_succ]
      exact ih _ _ n pp hget hdep

/-- C8: a query point with negative depth produces the tuple with all five
fields at -1 in its output slot, and the batch is not aborted: the output
still has one entry per input and the call still returns SUCCESS. -/
theorem claim_c8_negative_depth (cfg : Configuration) (geo : Geometry)
    (model : Model) (trans : ℚ → ℚ → Option (ℚ × ℚ))
    (pts : List (Point × Properties)) (i : ℕ) (pp : Point × Properties)
    (hget : pts[i]? = some pp) (hdep : pp.1.depth < 0) :
    ((ivlsu_query cfg geo model trans pts).2)[i]? = some ⟨-1, -1, -1, -1, -1⟩ ∧
    ((ivlsu_query cfg geo model trans pts).2).length = pts.length ∧
    (ivlsu_query cfg geo model trans pts).1 = SUCCESS :=
  ⟨query_loop_neg_depth cfg geo model trans pts 0 0 i pp hget hdep,
   query_loop_length cfg geo model trans pts 0 0, rfl⟩

/-- C8 witness: a two-point batch whose second point is 3 m above the surface
gets the all-sentinel tuple in slot 1, a two-entry output and SUCCESS. -/
theorem claim_c8_witness :
    ((ivlsu_query cfgT geoT modelT transT
        [(ptT, zeroProperties), (⟨10, 35, -3⟩, zeroProperties)]).2)[1]? =
      some ⟨-1, -1, -1, -1, -1⟩ ∧
    ((ivlsu_query cfgT geoT modelT transT
        [(ptT, zeroProperties), (⟨10, 35, -3⟩, zeroProperties)]).2).length = 2 ∧
    (ivlsu_query cfgT geoT modelT transT
        [(ptT, zeroProperties), (⟨10, 35, -3⟩, zeroProperties)]).1 = SUCCESS :=
  claim_c8_negative_depth cfgT geoT modelT transT
    [(ptT, zeroProperties), (⟨10, 35, -3⟩, zeroProperties)] 1
    (⟨10, 35, -3⟩, zeroProperties) rfl (by norm_num)

/-- C6 counterexample: a batch whose output slot starts with qp = 7, qs = 9
and whose point is deeper than the configured maximum gets the boundary
sentinel written for vp/vs/rho only -- the tuple written to the output
carries qp = 7 and qs = 9, not the sentinel -1 the claim requires. -/
theorem claim_c6_counterexample :
    (ivlsu_query cfgT geoT modelT transT [(ptDeep, prior79)]).2 =
      [⟨-1, -1, -1, 7, 9⟩] ∧ (7 : ℚ) ≠ -1 := by
  constructor
  · norm_num [ivlsu_query, ivlsu_query_loop, ivlsu_query_point, to_utm, transT,
      ptDeep, prior79, cfgT, geoT, load_x_coord, load_y_coord, load_z_coord,
      cround, ctrunc, delta_lon, delta_lat]
  · norm_num

/-- C6 amended: only the negative-depth path writes qp and qs (both to -1);
every other path -- boundary sentinel, raw lattice read, bilinear or
trilinear interpolation -- leaves qp and qs exactly as the caller's output
buffer already had them. -/
theorem claim_c6_qp_qs_passthrough (cfg : Configuration) (geo : Geometry)
    (model : Model) (trans : ℚ → ℚ → Option (ℚ × ℚ)) (u v : ℚ) (pt : Point)
    (prior : Properties) :
    ((ivlsu_query_point cfg geo model trans u v pt prior).1.qp =
      if pt.depth < 0 then -1 else prior.qp) ∧
    ((ivlsu_query_point cfg geo model trans u v pt prior).1.qs =
      if pt.depth < 0 then -1 else prior.qs) := by
  by_cases h : pt.depth < 0
  · simp [ivlsu_query_point, h]
  · simp only [ivlsu_query_point, if_neg h]
    split_ifs with hb
    · exact ⟨rfl, rfl⟩
    · simp [derive_vs_rho, gather_qp_qs]

/-- C7 counterexample: a global state whose ready flag is 0 still services a
query -- the call returns a filled, non-sentinel tuple instead of refusing,
so the ready state does not gate queries. -/
theorem claim_c7_counterexample :
    stNotReady.is_initialized = 0 ∧
    (ivlsu_query_st stNotReady transT [(ptT, zeroProperties)]).2 = [props500] ∧
    props500.vp ≠ -1 := by
  refine ⟨rfl, ?_, by norm_num [props500]⟩
  norm_num [ivlsu_query_st, stNotReady, ivlsu_query, ivlsu_query_loop,
    ivlsu_query_point, to_utm, transT, ptT, cfgT, geoT, modelT, load_x_coord,
    load_y_coord, load_z_coord, cround, ctrunc, delta_lon, delta_lat,
    ivlsu_query_gather, z_percent, x_percent, y_percent, x_interval,
    y_interval, fmodQ, zeroProperties, stackGarbage, ivlsu_read_properties,
    ivlsu_bilinear_interpolation, ivlsu_trilinear_interpolation,
    ivlsu_linear_interpolation, ivlsu_calculate_density, ivlsu_calculate_vs,
    derive_vs_rho, props500]

/-- C7 amended: ivlsu_init does set the explicit ready flag at the end of a
successful initialization, but ivlsu_query never consults it -- the query
result is identical under any value of is_initialized, so the flag does not
gate queries. -/
theorem claim_c7_flag_not_consulted (st : GlobalState) (b : ℤ)
    (trans : ℚ → ℚ → Option (ℚ × ℚ)) (pts : List (Point × Properties)) :
    ivlsu_query_st { st with is_initialized := b } trans pts =
      ivlsu_query_st st trans pts := rfl

/-- C1 counterexample: a two-point batch whose second point's coordinate
transform fails.  The call does not propagate the failure: it returns
SUCCESS, and the second point is serviced with grid coordinates computed
from the stale point_u/point_v left by the first iteration, producing a
full non-sentinel tuple. -/
theorem claim_c1_counterexample :
    transT ptBad.longitude ptBad.latitude = none ∧
    (ivlsu_query cfgT geoT modelT transT
      [(ptT, zeroProperties), (ptBad, zeroProperties)]).1 = SUCCESS ∧
    (ivlsu_query cfgT geoT modelT transT
      [(ptT, zeroProperties), (ptBad, zeroProperties)]).2 =
      [props500, props500] ∧
    props500.vp ≠ -1 := by
  refine ⟨by norm_num [transT, ptBad], rfl, ?_, by norm_num [props500]⟩
  norm_num [ivlsu_query, ivlsu_query_loop, ivlsu_query_point, to_utm, transT,
    ptT, ptBad, cfgT, geoT, modelT, load_x_coord, load_y_coord, load_z_coord,
    cround, ctrunc, delta_lon, delta_lat, ivlsu_query_gather, z_percent,
    x_percent, y_percent, x_interval, y_interval, fmodQ, zeroProperties,
    stackGarbage, ivlsu_read_properties, ivlsu_bilinear_interpolation,
    ivlsu_trilinear_interpolation, ivlsu_linear_interpolation,
    ivlsu_calculate_density, ivlsu_calculate_vs, derive_vs_rho, props500]

/-- C1 amended: ivlsu_query discards the error code of the per-point
transform, so a transform failure is never fatal to the call -- the call
always returns SUCCESS -- and the failed point is processed exactly as if
the transform had returned the stale point_u/point_v values carried over
from the previous iteration (initially 0, 0). -/
theorem claim_c1_transform_failure_ignored :
    (∀ (cfg : Configuration) (geo : Geometry) (model : Model)
      (trans : ℚ → ℚ → Option (ℚ × ℚ)) (pts : List (Point × Properties)),
      (ivlsu_query cfg geo model trans pts).1 = SUCCESS) ∧
    (∀ (cfg : Configuration) (geo : Geometry) (model : Model)
      (trans : ℚ → ℚ → Option (ℚ × ℚ)) (u v : ℚ) (pt : Point)
      (prior : Properties), trans pt.longitude pt.latitude = none →
      ivlsu_query_point cfg geo model trans u v pt prior =
        ivlsu_query_point cfg geo model (fun _ _ => some (u, v)) u v pt prior) := by
  refine ⟨fun _ _ _ _ _ => rfl, ?_⟩
  intro cfg geo model trans u v pt prior h
  simp only [ivlsu_query_point, to_utm, h]

/-- C1 witness: the amended claim at the always-failing transform: the call
still returns SUCCESS and the failed point behaves as if the transform had
returned the carried-over values (3, 4). -/
theorem claim_c1_witness :
    (ivlsu_query cfgT geoT modelT transNone [(ptT, zeroProperties)]).1 =
      SUCCESS ∧
    ivlsu_query_point cfgT geoT modelT transNone 3 4 ptT zeroProperties =
      ivlsu_query_point cfgT geoT modelT (fun _ _ => some (3, 4)) 3 4 ptT
        zeroProperties :=
  ⟨claim_c1_transform_failure_ignored.1 cfgT geoT modelT transNone
      [(ptT, zeroProperties)],
   claim_c1_transform_failure_ignored.2 cfgT geoT modelT transNone 3 4 ptT
      zeroProperties rfl⟩

/-- C2: FALSIFIED on the code.  Two in-bounds query points that pass the
orchestrator's boundary check nonetheless make ivlsu_query hand
out-of-range index triples to the unchecked storage accessor.  First: with
interpolation enabled, a point snapping to the last lattice column/row
(x index nx-1 = 1, y index ny-1 = 1 of cfgT) gathers neighbors at x+1 = 2
and y+1 = 2, beyond nx-1 and ny-1.  Second: a 2500 m point in cfgZ (depth
bound 3000 m, nz = 2) passes the check (which never compares the z index
against nz-1) and reads z index 2 > nz-1 = 1. -/
theorem claim_c2_check_misses_reads :
    ((ivlsu_query_point cfgT geoT modelT transT 0 0 ptT zeroProperties).2.1 =
      [(1, 1, 0), (2, 1, 0), (1, 2, 0), (2, 2, 0)] ∧
     cfgT.nx - 1 < 2 ∧ cfgT.ny - 1 < 2 ∧
     0 ≤ ptT.depth ∧ ptT.depth ≤ cfgT.depth) ∧
    ((ivlsu_query_point cfgZ geoT modelT transT 0 0 ptMid zeroProperties).2.1 =
      [(1, 1, 2)] ∧
     cfgZ.nz - 1 < 2 ∧ 0 ≤ ptMid.depth ∧ ptMid.depth ≤ cfgZ.depth) := by
  constructor
  · refine ⟨?_, by norm_num [cfgT], by norm_num [cfgT], by norm_num [ptT],
      by norm_num [ptT, cfgT]⟩
    norm_num [ivlsu_query_point, to_utm, transT, ptT, cfgT, geoT,
      load_x_coord, load_y_coord, load_z_coord, cround, ctrunc, delta_lon,
      delta_lat, ivlsu_query_gather, z_percent, fmodQ]
  · refine ⟨?_, by norm_num [cfgZ, cfgT], by norm_num [ptMid],
      by norm_num [ptMid, cfgZ, cfgT]⟩
    norm_num [ivlsu_query_point, to_utm, transT, ptMid, cfgZ, cfgT, geoT,
      load_x_coord, load_y_coord, load_z_coord, cround, ctrunc, delta_lon,
      delta_lat, ivlsu_query_gather, z_percent, fmodQ]

/-- C3: FALSIFIED on the code.  In the file-resident case (vp_status = 1)
ivlsu_read_properties seeks and reads through a local FILE pointer that is
initialized to NULL and never set to the stored handle, so the backing grid
file is never consulted: vp comes back as the -1 sentinel no matter what
the file holds (here 42 at every offset), and the result is completely
independent of the file contents.  vs and rho are left at -1 as claimed. -/
theorem claim_c3_file_resident_read :
    (ivlsu_read_properties cfgT modelFile 0 0 0 zeroProperties).vp = -1 ∧
    (ivlsu_read_properties cfgT modelFile 0 0 0 zeroProperties).vs = -1 ∧
    (ivlsu_read_properties cfgT modelFile 0 0 0 zeroProperties).rho = -1 ∧
    modelFile.vp_status = 1 ∧ modelFile.vpFile 0 = 42 ∧ (42 : ℚ) ≠ -1 ∧
    (∀ f : ℤ → ℚ,
      ivlsu_read_properties cfgT { modelFile with vpFile := f } 0 0 0
          zeroProperties =
        ivlsu_read_properties cfgT modelFile 0 0 0 zeroProperties) := by
  refine ⟨rfl, rfl, rfl, rfl, rfl, by norm_num, fun f => rfl⟩

/-- C4: bottom-plane edge case.  Whenever the computed vertical index is 0
and the vertical fraction is exactly 0, and the point survives the
negative-depth and boundary checks, a query with interpolation enabled
hands exactly the four single-plane triples (x,y,0), (x+1,y,0), (x,y+1,0),
(x+1,y+1,0) to the storage accessor -- every triple read has z-component 0,
so the z-1 plane is never touched -- and returns their bilinear
interpolation (with vs/rho then derived from the blended vp, as for every
serviced point); with interpolation disabled the result is the single raw
lattice read at the computed indices. -/
theorem claim_c4_bottom_plane_edge (cfg : Configuration) (geo : Geometry)
    (model : Model) (trans : ℚ → ℚ → Option (ℚ × ℚ)) (u v : ℚ) (pt : Point)
    (prior : Properties) (pu pv px py : ℚ) (lx ly : ℤ)
    (hpu : pu = (to_utm trans pt.longitude pt.latitude u v).2.1 -
      cfg.bottom_left_corner_e)
    (hpv : pv = (to_utm trans pt.longitude pt.latitude u v).2.2 -
      cfg.bottom_left_corner_n)
    (hpx : px = geo.cos_rotation_angle * pu - geo.sin_rotation_angle * pv)
    (hpy : py = geo.sin_rotation_angle * pu + geo.cos_rotation_angle * pv)
    (hlx : lx = load_x_coord cfg px) (hly : ly = load_y_coord cfg py)
    (hd : ¬ pt.depth < 0)
    (hz : load_z_coord pt.depth = 0)
    (hzp : z_percent cfg pt.depth = 0)
    (hB : ¬ (cfg.depth < pt.depth ∨ cfg.nx - 1 < lx ∨ cfg.ny - 1 < ly ∨
      lx < 0 ∨ ly < 0 ∨ load_z_coord pt.depth < 0)) :
    (cfg.interpolation ≠ 0 →
      ivlsu_query_point cfg geo model trans u v pt prior =
        (derive_vs_rho (ivlsu_bilinear_interpolation
            (x_percent cfg geo pu) (y_percent cfg geo pv)
            (ivlsu_read_properties cfg model lx ly 0 stackGarbage)
            (ivlsu_read_properties cfg model (lx + 1) ly 0 stackGarbage)
            (ivlsu_read_properties cfg model lx (ly + 1) 0 stackGarbage)
            (ivlsu_read_properties cfg model (lx + 1) (ly + 1) 0 stackGarbage)
            prior),
         [(lx, ly, 0), (lx + 1, ly, 0), (lx, ly + 1, 0), (lx + 1, ly + 1, 0)],
         pu, pv) ∧
      ∀ t ∈ (ivlsu_query_point cfg geo model trans u v pt prior).2.1,
        t.2.2 = 0) ∧
    (cfg.interpolation = 0 →
      ivlsu_query_point cfg geo model trans u v pt prior =
        (derive_vs_rho (ivlsu_read_properties cfg model lx ly 0 prior),
         [(lx, ly, 0)], pu, pv)) := by
  subst hlx hly hpx hpy hpu hpv
  constructor
  · intro hi
    have hmain : ivlsu_query_point cfg geo model trans u v pt prior =
        (derive_vs_rho (ivlsu_bilinear_interpolation
            (x_percent cfg geo
              ((to_utm trans pt.longitude pt.latitude u v).2.1 -
                cfg.bottom_left_corner_e))
            (y_percent cfg geo
              ((to_utm trans pt.longitude pt.latitude u v).2.2 -
                cfg.bottom_left_corner_n))
            (ivlsu_read_properties cfg model
              (load_x_coord cfg (geo.cos_rotation_angle *
                  ((to_utm trans pt.longitude pt.latitude u v).2.1 -
                    cfg.bottom_left_corner_e) -
                geo.sin_rotation_angle *
                  ((to_utm trans pt.longitude pt.latitude u v).2.2 -
                    cfg.bottom_left_corner_n)))
              (load_y_coord cfg (geo.sin_rotation_angle *
                  ((to_utm trans pt.longitude pt.latitude u v).2.1 -
                    cfg.bottom_left_corner_e) +
                geo.cos_rotation_angle *
                  ((to_utm trans pt.longitude pt.latitude u v).2.2 -
                    cfg.bottom_left_corner_n)))
              0 stackGarbage)
            (ivlsu_read_properties cfg model
              (load_x_coord cfg (geo.cos_rotation_angle *
                  ((to_utm trans pt.longitude pt.latitude u v).2.1 -
                    cfg.bottom_left_corner_e) -
                geo.sin_rotation_angle *
                  ((to_utm trans pt.longitude pt.latitude u v).2.2 -
                    cfg.bottom_left_corner_n)) + 1)
              (load_y_coord cfg (geo.sin_rotation_angle *
                  ((to_utm trans pt.longitude pt.latitude u v).2.1 -
                    cfg.bottom_left_corner_e) +
                geo.cos_rotation_angle *
                  ((to_utm trans pt.longitude pt.latitude u v).2.2 -
                    cfg.bottom_left_corner_n)))
              0 stackGarbage)
            (ivlsu_read_properties cfg model
              (load_x_coord cfg (geo.cos_rotation_angle *
                  ((to_utm trans pt.longitude pt.latitude u v).2.1 -
                    cfg.bottom_left_corner_e) -
                geo.sin_rotation_angle *
                  ((to_utm trans pt.longitude pt.latitude u v).2.2 -
                    cfg.bottom_left_corner_n)))
              (load_y_coord cfg (geo.sin_rotation_angle *
                  ((to_utm trans pt.longitude pt.latitude u v).2.1 -
                    cfg.bottom_left_corner_e) +
                geo.cos_rotation_angle *
                  ((to_utm trans pt.longitude pt.latitude u v).2.2 -
                    cfg.bottom_left_corner_n)) + 1)
              0 stackGarbage)
            (ivlsu_read_properties cfg model
              (load_x_coord cfg (geo.cos_rotation_angle *
                  ((to_utm trans pt.longitude pt.latitude u v).2.1 -
                    cfg.bottom_left_corner_e) -
                geo.sin_rotation_angle *
                  ((to_utm trans pt.longitude pt.latitude u v).2.2 -
                    cfg.bottom_left_corner_n)) + 1)
              (load_y_coord cfg (geo.sin_rotation_angle *
                  ((to_utm trans pt.longitude pt.latitude u v).2.1 -
                    cfg.bottom_left_corner_e) +
                geo.cos_rotation_angle *
                  ((to_utm trans pt.longitude pt.latitude u v).2.2 -
                    cfg.bottom_left_corner_n)) + 1)
              0 stackGarbage)
            prior),
         [(load_x_coord cfg (geo.cos_rotation_angle *
              ((to_utm trans pt.longitude pt.latitude u v).2.1 -
                cfg.bottom_left_corner_e) -
            geo.sin_rotation_angle *
              ((to_utm trans pt.longitude pt.latitude u v).2.2 -
                cfg.bottom_left_corner_n)),
           load_y_coord cfg (geo.sin_rotation_angle *
              ((to_utm trans pt.longitude pt.latitude u v).2.1 -
                cfg.bottom_left_corner_e) +
            geo.cos_rotation_angle *
              ((to_utm trans pt.longitude pt.latitude u v).2.2 -
                cfg.bottom_left_corner_n)), 0),
          (load_x_coord cfg (geo.cos_rotation_angle *
              ((to_utm trans pt.longitude pt.latitude u v).2.1 -
                cfg.bottom_left_corner_e) -
            geo.sin_rotation_angle *
              ((to_utm trans pt.longitude pt.latitude u v).2.2 -
                cfg.bottom_left_corner_n)) + 1,
           load_y_coord cfg (geo.sin_rotation_angle *
              ((to_utm trans pt.longitude pt.latitude u v).2.1 -
                cfg.bottom_left_corner_e) +
            geo.cos_rotation_angle *
              ((to_utm trans pt.longitude pt.latitude u v).2.2 -
                cfg.bottom_left_corner_n)), 0),
          (load_x_coord cfg (geo.cos_rotation_angle *
              ((to_utm trans pt.longitude pt.latitude u v).2.1 -
                cfg.bottom_left_corner_e) -
            geo.sin_rotation_angle *
              ((to_utm trans pt.longitude pt.latitude u v).2.2 -
                cfg.bottom_left_corner_n)),
           load_y_coord cfg (geo.sin_rotation_angle *
              ((to_utm trans pt.longitude pt.latitude u v).2.1 -
                cfg.bottom_left_corner_e) +
            geo.cos_rotation_angle *
              ((to_utm trans pt.longitude pt.latitude u v).2.2 -
                cfg.bottom_left_corner_n)) + 1, 0),
          (load_x_coord cfg (geo.cos_rotation_angle *
              ((to_utm trans pt.longitude pt.latitude u v).2.1 -
                cfg.bottom_left_corner_e) -
            geo.sin_rotation_angle *
              ((to_utm trans pt.longitude pt.latitude u v).2.2 -
                cfg.bottom_left_corner_n)) + 1,
           load_y_coord cfg (geo.sin_rotation_angle *
              ((to_utm trans pt.longitude pt.latitude u v).2.1 -
                cfg.bottom_left_corner_e) +
            geo.cos_rotation_angle *
              ((to_utm trans pt.longitude pt.latitude u v).2.2 -
                cfg.bottom_left_corner_n)) + 1, 0)],
         (to_utm trans pt.longitude pt.latitude u v).2.1 -
           cfg.bottom_left_corner_e,
         (to_utm trans pt.longitude pt.latitude u v).2.2 -
           cfg.bottom_left_corner_n) := by
      simp only [ivlsu_query_point]
      rw [if_neg hd, if_neg hB]
      simp only [ivlsu_query_gather]
      rw [if_pos ⟨hz, hzp⟩, if_pos hi]
    refine ⟨hmain, ?_⟩
    intro t ht
    rw [hmain] at ht
    simp only [List.mem_cons, List.mem_singleton] at ht
    rcases ht with rfl | rfl | rfl | rfl | ht
    · rfl
    · rfl
    · rfl
    · rfl
    · simp at ht
  · intro hi
    simp only [ivlsu_query_point]
    rw [if_neg hd, if_neg hB]
    simp only [ivlsu_query_gather]
    rw [if_pos ⟨hz, hzp⟩, if_neg (not_not_intro hi)]

/-- C4 witness: on the test grid at the surface point ptT (vertical index 0,
vertical fraction 0, interpolation enabled) the storage accessor receives
exactly the four z = 0 plane triples around lattice node (1,1) -- the z-1
plane is never read -- by direct application of the claim theorem. -/
theorem claim_c4_witness :
    (ivlsu_query_point cfgT geoT modelT transT 0 0 ptT zeroProperties).2.1 =
      [((1:ℤ), (1:ℤ), (0:ℤ)), (2, 1, 0), (1, 2, 0), (2, 2, 0)] := by
  have h := ((claim_c4_bottom_plane_edge cfgT geoT modelT transT 0 0 ptT
      zeroProperties _ _ _ _ _ _ rfl rfl rfl rfl rfl rfl
      (by norm_num [ptT])
      (by norm_num [load_z_coord, ctrunc, ptT])
      (by norm_num [z_percent, fmodQ, ctrunc, ptT, cfgT])
      (by norm_num [to_utm, transT, ptT, cfgT, geoT, load_x_coord,
        load_y_coord, load_z_coord, cround, ctrunc, delta_lon, delta_lat])).1
    (by norm_num [cfgT])).1
  rw [h]
  norm_num [to_utm, transT, ptT, cfgT, geoT, load_x_coord, load_y_coord,
    cround, ctrunc, delta_lon, delta_lat]

end IVLSU
